import Mathlib

/-!
Shallow embedding of `src/main.py` (Amadeus flight-price proxy).

The module-level mutable credential becomes an explicit state value, the
two outbound HTTP calls (OAuth token endpoint, flight-offers search) are
modelled by an environment describing what the provider would answer, and
the handler `get_flight_price` becomes a pure function returning the HTTP
outcome, the final credential state and the list of provider calls it
issued, in order.
-/

namespace Amadeus

/-- Gregorian calendar date, as Python `datetime.date` (year, month, day). -/
structure PyDate where
  year : Nat
  month : Nat
  day : Nat
deriving DecidableEq, Repr

/-- Leap-year rule used by Python `datetime`. -/
def isLeap (y : Nat) : Bool :=
  (y % 4 == 0) && (y % 100 != 0 || y % 400 == 0)

/-- Length of a month in the Gregorian calendar. -/
def daysInMonth (y m : Nat) : Nat :=
  if m = 2 then (if isLeap y then 29 else 28)
  else if m = 4 ∨ m = 6 ∨ m = 9 ∨ m = 11 then 30
  else 31

/-- Length of a year. -/
def daysInYear (y : Nat) : Nat :=
  if isLeap y then 366 else 365

/-- Days in year `y` strictly before month `m` (months are 1-based). -/
def daysBeforeMonth (y : Nat) : Nat → Nat
  | 0 => 0
  | m + 1 => if m = 0 then 0 else daysBeforeMonth y m + daysInMonth y m

/-- Number of leap years in `1..y`. -/
def leapsBefore (y : Nat) : Nat :=
  y / 4 - y / 100 + y / 400

/-- Days strictly before year `y` counting from year 1 (years are 1-based),
as Python `datetime._days_before_year`. -/
def daysBeforeYear (y : Nat) : Nat :=
  365 * (y - 1) + leapsBefore (y - 1)

/-- Proleptic-Gregorian ordinal of a date, as Python `date.toordinal`
(0001-01-01 has ordinal 1). -/
def toOrd (d : PyDate) : Nat :=
  daysBeforeYear d.year + daysBeforeMonth d.year d.month + d.day

/-- A structurally valid calendar date (no upper bound on the year). -/
def ValidYMD (d : PyDate) : Prop :=
  1 ≤ d.year ∧ 1 ≤ d.month ∧ d.month ≤ 12 ∧ 1 ≤ d.day ∧
    d.day ≤ daysInMonth d.year d.month

instance (d : PyDate) : Decidable (ValidYMD d) := by
  unfold ValidYMD; infer_instance

/-- The next calendar day, with month and year rollover. -/
def succDay (d : PyDate) : PyDate :=
  if d.day < daysInMonth d.year d.month then ⟨d.year, d.month, d.day + 1⟩
  else if d.month < 12 then ⟨d.year, d.month + 1, 1⟩
  else ⟨d.year + 1, 1, 1⟩

/-- `d + timedelta(days := n)`: adding days is iterating the successor day. -/
def addDays (d : PyDate) : Nat → PyDate
  | 0 => d
  | n + 1 => succDay (addDays d n)

/-- Value of a big-endian list of ASCII digit characters, as Python `int`. -/
def digitsVal (cs : List Char) : Nat :=
  cs.foldl (fun a c => 10 * a + (c.toNat - 48)) 0

/-- Split a character list on the `'-'` separator. -/
def splitDash : List Char → List (List Char)
  | [] => [[]]
  | c :: cs =>
    if c = '-' then [] :: splitDash cs
    else
      match splitDash cs with
      | [] => [[c]]
      | g :: gs => (c :: g) :: gs

/-- `datetime.strptime(s, "%Y-%m-%d").date()`: exactly four year digits,
one or two month and day digits, the values range-checked by the `date`
constructor; `none` models the `ValueError` raised on mismatch. -/
def strptime_date (s : String) : Option PyDate :=
  match splitDash s.data with
  | [ys, ms, ds] =>
    if ys.length = 4 ∧ ys.all Char.isDigit ∧
        1 ≤ ms.length ∧ ms.length ≤ 2 ∧ ms.all Char.isDigit ∧
        1 ≤ ds.length ∧ ds.length ≤ 2 ∧ ds.all Char.isDigit then
      if ValidYMD ⟨digitsVal ys, digitsVal ms, digitsVal ds⟩ then
        some ⟨digitsVal ys, digitsVal ms, digitsVal ds⟩
      else none
    else none
  | _ => none

/-- ASCII digit character for `k < 10`. -/
def digitChar (k : Nat) : Char := Char.ofNat (48 + k)

/-- Big-endian decimal digits of `n`, with fuel for termination. -/
def natChars : Nat → Nat → List Char
  | 0, _ => []
  | f + 1, n => if n < 10 then [digitChar n] else natChars f (n / 10) ++ [digitChar (n % 10)]

/-- Decimal digits of `n` zero-padded on the left to width `w`. -/
def natPad (w n : Nat) : List Char :=
  let ds := natChars (n + 1) n
  List.replicate (w - ds.length) '0' ++ ds

/-- `date.strftime("%Y-%m-%d")`: zero-padded ISO date. -/
def strftime_date (d : PyDate) : String :=
  ⟨natPad 4 d.year ++ '-' :: (natPad 2 d.month ++ '-' :: natPad 2 d.day)⟩

/-- Python regex `\s` on the ASCII range. -/
def isPySpace (c : Char) : Bool :=
  c == ' ' || c == '\t' || c == '\n' || c == '\r' || c == '\x0b' || c == '\x0c'

/-- `re.match(r"(\d+)\s*days", s, re.IGNORECASE)`: anchored at the start
only — one or more digits, optional whitespace, then `days` in any case,
with arbitrary trailing text allowed.  Returns `int(match.group(1))`. -/
def matchDuration (s : String) : Option Nat :=
  let digs := s.data.takeWhile Char.isDigit
  if digs.isEmpty then none
  else
    let rest := (s.data.dropWhile Char.isDigit).dropWhile isPySpace
    if (rest.take 4).map Char.toLower = ['d', 'a', 'y', 's'] then
      some (digitsVal digs)
    else none

/-- Body of a successful token-endpoint response. -/
structure TokenData where
  access_token : String
  expires_in : Int
deriving DecidableEq, Repr

/-- The module-level mutable pair `token`, `token_expiry`; the expiry is a
timestamp in seconds (`none` models the initial Python `None`). -/
structure AmadeusCred where
  token : String
  token_expiry : Option Int
deriving DecidableEq, Repr

/-- `is_token_valid`: the token string is truthy (non-empty), the expiry is
set, and it lies more than 5 minutes after the current time. -/
def is_token_valid (now : Int) (c : AmadeusCred) : Bool :=
  !(c.token == "") &&
    (match c.token_expiry with
     | none => false
     | some e => decide (now + 5 * 60 < e))

/-- `float(s)` on the provider's decimal price strings: optional integer
part, optional dot and fraction part, at least one digit in all; `none`
models the `ValueError` on anything else. -/
def parseDecimal (s : String) : Option ℚ :=
  let ip := s.data.takeWhile Char.isDigit
  match s.data.dropWhile Char.isDigit with
  | [] => if ip.isEmpty then none else some (Rat.divInt (digitsVal ip) 1)
  | '.' :: fp =>
    if fp.all Char.isDigit ∧ ¬(ip.isEmpty ∧ fp.isEmpty) then
      some (Rat.divInt (digitsVal (ip ++ fp)) ((10 : Int) ^ fp.length))
    else none
  | _ => none

/-- `segment["departure"]` / `segment["arrival"]`: airport code and time. -/
structure FlightPoint where
  iataCode : String
  atTime : String
deriving DecidableEq, Repr

/-- One flight segment of a provider offer. -/
structure Segment where
  carrierCode : String
  number : String
  departure : FlightPoint
  arrival : FlightPoint
  duration : String
deriving DecidableEq, Repr

/-- One itinerary of a provider offer. -/
structure Itinerary where
  duration : String
  segments : List Segment
deriving DecidableEq, Repr

/-- The price block of a provider offer. -/
structure Price where
  grandTotal : String
deriving DecidableEq, Repr

/-- One provider offer: a price and one or two itineraries. -/
structure Offer where
  price : Price
  itineraries : List Itinerary
deriving DecidableEq, Repr

/-- `float(x["price"]["grandTotal"])`, the key used by `min`; defaults are
irrelevant because the pipeline raises before using an unparsable price. -/
def grandTotalVal (o : Offer) : ℚ :=
  (parseDecimal o.price.grandTotal).getD 0

/-- Python `min(iterable, key=...)`: scan left to right, replacing the
running best only on a strictly smaller key, so the first minimum wins. -/
def pyMin : Offer → List Offer → Offer
  | best, [] => best
  | best, y :: ys => pyMin (if grandTotalVal y < grandTotalVal best then y else best) ys

/-- One shaped segment of the response payload. -/
structure SegmentInfo where
  airline_code : String
  flight_number : String
  departure_airport : String
  departure_time : String
  arrival_airport : String
  arrival_time : String
  duration : String
deriving DecidableEq, Repr

/-- One shaped itinerary of the response payload. -/
structure JourneyInfo where
  total_duration : String
  segments : List SegmentInfo
deriving DecidableEq, Repr

/-- `parse_itinerary_details`: shape an itinerary into the payload form. -/
def parse_itinerary_details (it : Itinerary) : JourneyInfo :=
  ⟨it.duration, it.segments.map fun s =>
    ⟨s.carrierCode, s.number, s.departure.iataCode, s.departure.atTime,
      s.arrival.iataCode, s.arrival.atTime, s.duration⟩⟩

/-- The `response_data` dictionary. -/
structure ResponseData where
  journey_type : String
  total_price_in_inr : ℚ
  outbound_journey : JourneyInfo
  return_journey : Option JourneyInfo
  return_date : Option String
deriving DecidableEq, Repr

/-- A successful endpoint body: either the informational no-offers message
or the shaped response data. -/
inductive FlightResult
  | message (msg : String)
  | data (rd : ResponseData)
deriving DecidableEq, Repr

/-- The query-parameter dictionary sent to the flight-offers endpoint. -/
structure SearchQueryParams where
  originLocationCode : String
  destinationLocationCode : String
  departureDate : String
  adults : Nat
  currencyCode : String
  max : Nat
  returnDate : Option String
deriving DecidableEq, Repr

/-- Outbound provider calls, in the order they are issued. -/
inductive ApiCall
  | tokenCall
  | searchCall (params : SearchQueryParams)
deriving DecidableEq, Repr

/-- What the provider's flight-offers endpoint would answer: a 2xx JSON
body with its `data` list (absent `data` is the empty list), a non-2xx
response whose body may (`some`) or may not (`none`) be JSON, or a network
failure in which no response object exists. -/
inductive SearchReply
  | success (offers : List Offer)
  | httpFailure (status : Nat) (body : Option String)
  | networkFailure (msg : String)
deriving DecidableEq, Repr

/-- The environment of one request: current time and what the provider's
two endpoints would answer (`none` for the token endpoint models a network
or non-2xx failure of the OAuth call). -/
structure Env where
  now : Int
  tokenReply : Option TokenData
  searchReply : SearchReply
deriving DecidableEq, Repr

/-- Observable outcome of the handler: an HTTP 200 with a body, an
`HTTPException(status, detail)`, or a non-HTTP exception escaping the
handler (the framework then answers a bare 500). -/
inductive Outcome
  | ok (result : FlightResult)
  | httpError (status : Nat) (detail : String)
  | pyError (exc : String)
deriving DecidableEq, Repr

def authFailMsg : String := "Failed to authenticate with Amadeus API."

def invalidDurationMsg : String := "Invalid duration format. Please use \x27X days\x27."

def noOffersMsg : String := "No flight offers found for the specified criteria."

/-- `str(e)` of the `ValueError` raised by `strptime` on a bad date. -/
def strptimeErrMsg (s : String) : String :=
  "time data \x27" ++ s ++ "\x27 does not match format \x27%Y-%m-%d\x27"

/-- `str(e)` of the `requests.HTTPError` raised by `raise_for_status`
(abstracted to the status code and client/server class). -/
def requestsErrText (status : Nat) : String :=
  toString status ++ (if status < 500 then " Client Error" else " Server Error")

/-- The `detail` chosen by the except-block for a non-2xx provider
response whose body parsed as JSON. -/
def classifyDetail (status : Nat) (body : String) : String :=
  if status = 400 then
    "Bad request to Amadeus API. Please check your parameters. Error: " ++ body
  else if status = 401 then
    "Amadeus authentication failed. Please check your API key and secret."
  else if status = 404 then
    "The requested resource was not found on the Amadeus API."
  else
    "An error occurred while fetching flight data: " ++ requestsErrText status

/-- `get_amadeus_token`: on a token-endpoint success overwrite the
credential wholesale, expiry at `now + expires_in`; otherwise raise the
500 authentication `HTTPException`. -/
def get_amadeus_token (env : Env) : Except Outcome AmadeusCred :=
  match env.tokenReply with
  | none => Except.error (Outcome.httpError 500 authFailMsg)
  | some td => Except.ok ⟨td.access_token, some (env.now + td.expires_in)⟩

/-- Lines 85-97: the duration block.  A falsy (absent or empty) duration
is skipped; otherwise the regex must match (else the 400 with the format
message), the departure date must `strptime` (else a 400 with its
message), and the return date is departure plus the parsed number of
days, ISO-formatted; past `date.max` Python raises `OverflowError`, which
the `except (ValueError, IndexError)` clause does not catch. -/
def computeReturnDate (departure_date : String) (duration : Option String) :
    Except Outcome (Option String) :=
  match duration with
  | none => Except.ok none
  | some s =>
    if s = "" then Except.ok none
    else
      match matchDuration s with
      | none => Except.error (Outcome.httpError 400 invalidDurationMsg)
      | some n =>
        match strptime_date departure_date with
        | none => Except.error (Outcome.httpError 400 (strptimeErrMsg departure_date))
        | some d =>
          let rd := addDays d n
          if 9999 < rd.year then Except.error (Outcome.pyError "OverflowError")
          else Except.ok (some (strftime_date rd))

/-- Truthiness of the `duration` query parameter. -/
def durTruthy (duration : Option String) : Bool :=
  match duration with
  | none => false
  | some s => !(s == "")

/-- Lines 103-167: issue the search and classify the reply.  An empty
offer list is the informational success; an unparsable price is the
uncaught `ValueError` of `float`; an offer without itineraries is the
uncaught `IndexError`; a non-2xx reply is classified by status when its
body is JSON and otherwise becomes a 500 with the original error text; a
network failure leaves `response` unbound, so the handler dies with an
uncaught `UnboundLocalError`. -/
def searchPhase (reply : SearchReply) (duration : Option String)
    (params : SearchQueryParams) : Outcome :=
  match reply with
  | SearchReply.success offers =>
    match offers with
    | [] => Outcome.ok (FlightResult.message noOffersMsg)
    | o :: os =>
      if (o :: os).any (fun x => (parseDecimal x.price.grandTotal).isNone) then
        Outcome.pyError "ValueError"
      else
        let cheapest := pyMin o os
        match cheapest.itineraries with
        | [] => Outcome.pyError "IndexError"
        | it0 :: more =>
          let base : ResponseData :=
            { journey_type := if durTruthy duration then "two-way" else "one-way"
              total_price_in_inr := grandTotalVal cheapest
              outbound_journey := parse_itinerary_details it0
              return_journey := none
              return_date := none }
          match durTruthy duration, more with
          | true, it1 :: _ =>
            Outcome.ok (FlightResult.data
              { base with
                return_journey := some (parse_itinerary_details it1)
                return_date := params.returnDate })
          | _, _ => Outcome.ok (FlightResult.data base)
  | SearchReply.httpFailure status body? =>
    match body? with
    | none => Outcome.httpError 500 (requestsErrText status)
    | some body => Outcome.httpError status (classifyDetail status body)
  | SearchReply.networkFailure _ => Outcome.pyError "UnboundLocalError"

/-- `get_flight_price`: refresh the token when the cached one is invalid,
then run the duration block, then issue the search.  Returns the outcome,
the final credential state and the provider calls issued, in order. -/
def get_flight_price (env : Env) (st : AmadeusCred)
    (origin destination departure_date : String) (duration : Option String) :
    Outcome × AmadeusCred × List ApiCall :=
  let tokenStep : Except (Outcome × AmadeusCred × List ApiCall) (AmadeusCred × List ApiCall) :=
    if is_token_valid env.now st then Except.ok (st, [])
    else
      match get_amadeus_token env with
      | Except.error o => Except.error (o, st, [ApiCall.tokenCall])
      | Except.ok st2 => Except.ok (st2, [ApiCall.tokenCall])
  match tokenStep with
  | Except.error r => r
  | Except.ok (st2, calls) =>
    match computeReturnDate departure_date duration with
    | Except.error o => (o, st2, calls)
    | Except.ok rdate =>
      let params : SearchQueryParams :=
        ⟨origin, destination, departure_date, 1, "INR", 10, rdate⟩
      (searchPhase env.searchReply duration params, st2,
        calls ++ [ApiCall.searchCall params])

/-! ### Calendar arithmetic lemmas -/

theorem daysInMonth_pos (y m : Nat) : 1 ≤ daysInMonth y m := by
  unfold daysInMonth
  split_ifs <;> omega

theorem daysBeforeYear_succ (y : Nat) (hy : 1 ≤ y) :
    daysBeforeYear (y + 1) = daysBeforeYear y + daysInYear y := by
  simp only [daysBeforeYear, daysInYear, leapsBefore, isLeap]
  by_cases h4 : y % 4 = 0 <;> by_cases h100 : y % 100 = 0 <;> by_cases h400 : y % 400 = 0 <;>
    simp [h4, h100, h400] <;> omega

theorem daysBeforeMonth_succ (y m : Nat) (hm : 1 ≤ m) :
    daysBeforeMonth y (m + 1) = daysBeforeMonth y m + daysInMonth y m := by
  have : ¬ m = 0 := by omega
  simp [daysBeforeMonth, this]

theorem daysBeforeMonth_year_total (y : Nat) :
    daysBeforeMonth y 12 + daysInMonth y 12 = daysInYear y := by
  by_cases h : isLeap y = true <;>
    simp [daysBeforeMonth, daysInMonth, daysInYear, h]

theorem toOrd_succDay (d : PyDate) (h : ValidYMD d) :
    toOrd (succDay d) = toOrd d + 1 := by
  obtain ⟨hy, hm1, hm12, hd1, hdM⟩ := h
  unfold succDay
  split_ifs with h1 h2
  · dsimp only [toOrd]
    omega
  · have hday : d.day = daysInMonth d.year d.month := by omega
    have hs := daysBeforeMonth_succ d.year d.month hm1
    dsimp only [toOrd]
    omega
  · have hm : d.month = 12 := by omega
    have hday : d.day = daysInMonth d.year d.month := by omega
    have hys := daysBeforeYear_succ d.year hy
    have htot := daysBeforeMonth_year_total d.year
    have hb1 : daysBeforeMonth (d.year + 1) 1 = 0 := by simp [daysBeforeMonth]
    dsimp only [toOrd]
    rw [hm] at hday hdM
    rw [hm]
    omega

theorem validYMD_succDay (d : PyDate) (h : ValidYMD d) :
    ValidYMD (succDay d) := by
  obtain ⟨hy, hm1, hm12, hd1, hdM⟩ := h
  unfold succDay
  split_ifs with h1 h2
  · exact ⟨hy, hm1, hm12, by dsimp only; omega, by dsimp only; omega⟩
  · refine ⟨hy, by dsimp only; omega, by dsimp only; omega, by dsimp only; omega, ?_⟩
    dsimp only
    exact daysInMonth_pos d.year (d.month + 1)
  · refine ⟨by dsimp only; omega, by dsimp only; omega, by dsimp only; omega,
      by dsimp only; omega, ?_⟩
    dsimp only
    exact daysInMonth_pos (d.year + 1) 1

theorem toOrd_addDays (d : PyDate) (h : ValidYMD d) (n : Nat) :
    toOrd (addDays d n) = toOrd d + n ∧ ValidYMD (addDays d n) := by
  induction n with
  | zero => exact ⟨rfl, h⟩
  | succ k ih =>
    refine ⟨?_, validYMD_succDay _ ih.2⟩
    have := toOrd_succDay (addDays d k) ih.2
    simp only [addDays]
    omega

theorem strptime_date_valid (s : String) (d : PyDate)
    (h : strptime_date s = some d) : ValidYMD d := by
  unfold strptime_date at h
  split at h
  · split_ifs at h with h1 h2
    all_goals simp_all
  · simp at h

/-! ### Python `min` with a key: first minimum wins -/

theorem pyMin_first_min (best : Offer) (l : List Offer) :
    ∃ i : Nat, (best :: l)[i]? = some (pyMin best l) ∧
      (∀ x ∈ best :: l, grandTotalVal (pyMin best l) ≤ grandTotalVal x) ∧
      (∀ j x, j < i → (best :: l)[j]? = some x →
        grandTotalVal (pyMin best l) < grandTotalVal x) := by
  induction l generalizing best with
  | nil =>
    refine ⟨0, by simp [pyMin], ?_, by simp⟩
    intro x hx
    rcases List.mem_cons.mp hx with rfl | hx
    · exact le_refl _
    · simp at hx
  | cons y ys ih =>
    by_cases hlt : grandTotalVal y < grandTotalVal best
    · obtain ⟨i, hget, hmin, hfirst⟩ := ih y
      rw [show pyMin best (y :: ys) = pyMin y ys by simp [pyMin, if_pos hlt]]
      refine ⟨i + 1, by simpa using hget, ?_, ?_⟩
      · intro x hx
        rcases List.mem_cons.mp hx with rfl | hx
        · exact le_trans (le_of_lt (lt_of_le_of_lt (hmin y (by simp)) hlt)) (le_refl _)
        · exact hmin x hx
      · intro j x hj hjx
        cases j with
        | zero =>
          have hxb : best = x := by simpa using hjx
          exact hxb ▸ lt_of_le_of_lt (hmin y (by simp)) hlt
        | succ k =>
          exact hfirst k x (by omega) (by simpa using hjx)
    · obtain ⟨i, hget, hmin, hfirst⟩ := ih best
      have hby : grandTotalVal best ≤ grandTotalVal y := not_lt.mp hlt
      rw [show pyMin best (y :: ys) = pyMin best ys by simp [pyMin, if_neg hlt]]
      have hmb : grandTotalVal (pyMin best ys) ≤ grandTotalVal best := hmin best (by simp)
      cases i with
      | zero =>
        have hb : pyMin best ys = best := by simpa using hget.symm
        refine ⟨0, by simp [hb], ?_, by simp⟩
        intro x hx
        rcases List.mem_cons.mp hx with rfl | hx
        · exact hmb
        rcases List.mem_cons.mp hx with rfl | hx
        · exact le_trans hmb hby
        · exact hmin x (by simp [hx])
      | succ k =>
        have hstrict : grandTotalVal (pyMin best ys) < grandTotalVal best :=
          hfirst 0 best (by omega) (by simp)
        refine ⟨k + 2, by simpa using hget, ?_, ?_⟩
        · intro x hx
          rcases List.mem_cons.mp hx with rfl | hx
          · exact hmb
          rcases List.mem_cons.mp hx with rfl | hx
          · exact le_trans hmb hby
          · exact hmin x (by simp [hx])
        · intro j x hj hjx
          cases j with
          | zero =>
            have hxb : best = x := by simpa using hjx
            exact hxb ▸ hstrict
          | succ j1 =>
            cases j1 with
            | zero =>
              have hxy : y = x := by simpa using hjx
              exact hxy ▸ lt_of_lt_of_le hstrict hby
            | succ j2 =>
              exact hfirst (j2 + 1) x (by omega) (by simpa using hjx)

/-! ### Claim theorems -/

/-- C10: the shared credential is mutated only by the token refresh: if the
validity check at the start of the request succeeds, the whole handling of
the request — whatever its outcome — leaves the cached token and expiry
unchanged. -/
theorem c10_credential_frame (env : Env) (st : AmadeusCred)
    (origin destination departure_date : String) (duration : Option String)
    (hv : is_token_valid env.now st = true) :
    (get_flight_price env st origin destination departure_date duration).2.1 = st := by
  rcases h : computeReturnDate departure_date duration with o | rdate <;>
    simp [get_flight_price, hv, h]

/-- C10 witness: with a cached token valid for another 1000 seconds the
credential is untouched by a full successful request. -/
theorem c10_credential_frame_witness :
    (get_flight_price ⟨1000, none, SearchReply.success []⟩ ⟨"tok", some 2400⟩
      "DEL" "BOM" "2025-01-30" none).2.1 = ⟨"tok", some 2400⟩ :=
  c10_credential_frame ⟨1000, none, SearchReply.success []⟩ ⟨"tok", some 2400⟩
    "DEL" "BOM" "2025-01-30" none (by decide)

/-- C4: a token refresh is performed if and only if the cached credential is
invalid, and the credential is valid exactly when the token is non-empty and
its expiry lies more than 5 minutes (300 seconds) after the current time. -/
theorem c4_refresh_iff (env : Env) (st : AmadeusCred)
    (origin destination departure_date : String) (duration : Option String) :
    (ApiCall.tokenCall ∈ (get_flight_price env st origin destination departure_date duration).2.2 ↔
      is_token_valid env.now st = false) ∧
    (is_token_valid env.now st = true ↔
      (st.token ≠ "" ∧ ∃ e : Int, st.token_expiry = some e ∧ env.now + 5 * 60 < e)) := by
  constructor
  · by_cases hv : is_token_valid env.now st
    · rcases h : computeReturnDate departure_date duration with o | rdate <;>
        simp [get_flight_price, hv, h]
    · simp only [Bool.not_eq_true] at hv
      rcases ht : get_amadeus_token env with o | st2 <;>
        rcases h : computeReturnDate departure_date duration with o2 | rdate <;>
        simp [get_flight_price, hv, ht, h]
  · rcases st with ⟨tok, exp⟩
    cases exp <;> simp [is_token_valid]

/-- C4 witness: a cached token still valid for 10 minutes (600 seconds)
never triggers a refresh. -/
theorem c4_refresh_iff_witness :
    ApiCall.tokenCall ∉
      (get_flight_price ⟨0, none, SearchReply.success []⟩ ⟨"tok", some 600⟩
        "DEL" "BOM" "2025-01-30" none).2.2 :=
  fun hmem =>
    absurd ((c4_refresh_iff ⟨0, none, SearchReply.success []⟩ ⟨"tok", some 600⟩
      "DEL" "BOM" "2025-01-30" none).1.mp hmem) (by decide)

/-- C7: an empty provider offer list produces a successful response carrying
the informational no-offers message, never an error. -/
theorem c7_empty_offers (env : Env) (st : AmadeusCred)
    (origin destination departure_date : String) (duration : Option String)
    (rdate : Option String)
    (hv : is_token_valid env.now st = true)
    (hdur : computeReturnDate departure_date duration = Except.ok rdate)
    (hs : env.searchReply = SearchReply.success []) :
    (get_flight_price env st origin destination departure_date duration).1 =
      Outcome.ok (FlightResult.message noOffersMsg) := by
  simp [get_flight_price, hv, hdur, searchPhase, hs]

/-- C7 witness: a concrete request with an empty offer list succeeds with
the informational message. -/
theorem c7_empty_offers_witness :
    (get_flight_price ⟨1000, none, SearchReply.success []⟩ ⟨"tok", some 2400⟩
      "DEL" "BOM" "2025-01-30" none).1 =
      Outcome.ok (FlightResult.message noOffersMsg) :=
  c7_empty_offers ⟨1000, none, SearchReply.success []⟩ ⟨"tok", some 2400⟩
    "DEL" "BOM" "2025-01-30" none none (by decide) rfl rfl

theorem searchPhase_success_total (o : Offer) (os : List Offer)
    (duration : Option String) (params : SearchQueryParams)
    (hany : ((o :: os).any fun x => (parseDecimal x.price.grandTotal).isNone) = false)
    (hit : (pyMin o os).itineraries ≠ []) :
    ∃ pd : ResponseData,
      searchPhase (SearchReply.success (o :: os)) duration params =
        Outcome.ok (FlightResult.data pd) ∧
      pd.total_price_in_inr = grandTotalVal (pyMin o os) := by
  rcases hits : (pyMin o os).itineraries with _ | ⟨it0, more⟩
  · exact absurd hits hit
  cases hdt : durTruthy duration with
  | false =>
    cases more with
    | nil =>
      exact ⟨⟨"one-way", grandTotalVal (pyMin o os), parse_itinerary_details it0, none, none⟩,
        by simp [searchPhase, hany, hits, hdt], rfl⟩
    | cons it1 rest =>
      exact ⟨⟨"one-way", grandTotalVal (pyMin o os), parse_itinerary_details it0, none, none⟩,
        by simp [searchPhase, hany, hits, hdt], rfl⟩
  | true =>
    cases more with
    | nil =>
      exact ⟨⟨"two-way", grandTotalVal (pyMin o os), parse_itinerary_details it0, none, none⟩,
        by simp [searchPhase, hany, hits, hdt], rfl⟩
    | cons it1 rest =>
      exact ⟨⟨"two-way", grandTotalVal (pyMin o os), parse_itinerary_details it0,
          some (parse_itinerary_details it1), params.returnDate⟩,
        by simp [searchPhase, hany, hits, hdt], rfl⟩

/-- C1: for a non-empty offer list whose prices all parse, the endpoint
succeeds with a payload whose total price is the parsed grandTotal of the
selected offer `pyMin o os`; that offer occurs in the list, its price is
minimal, and every earlier element is strictly more expensive, so the
first minimum wins ties. -/
theorem c1_min_price_selection (env : Env) (st : AmadeusCred)
    (origin destination departure_date : String) (duration : Option String)
    (rdate : Option String) (o : Offer) (os : List Offer)
    (hv : is_token_valid env.now st = true)
    (hdur : computeReturnDate departure_date duration = Except.ok rdate)
    (hs : env.searchReply = SearchReply.success (o :: os))
    (hp : ∀ x ∈ o :: os, (parseDecimal x.price.grandTotal).isSome = true)
    (hit : (pyMin o os).itineraries ≠ []) :
    (∃ pd : ResponseData,
      (get_flight_price env st origin destination departure_date duration).1 =
        Outcome.ok (FlightResult.data pd) ∧
      pd.total_price_in_inr = grandTotalVal (pyMin o os)) ∧
    (∃ i : Nat, (o :: os)[i]? = some (pyMin o os) ∧
      (∀ x ∈ o :: os, grandTotalVal (pyMin o os) ≤ grandTotalVal x) ∧
      (∀ j x, j < i → (o :: os)[j]? = some x →
        grandTotalVal (pyMin o os) < grandTotalVal x)) := by
  refine ⟨?_, pyMin_first_min o os⟩
  have hany : ((o :: os).any fun x => (parseDecimal x.price.grandTotal).isNone) = false := by
    rw [List.any_eq_false]
    intro x hx
    have h1 := hp x hx
    simp only [Option.isNone_iff_eq_none]
    exact Option.isSome_iff_ne_none.mp h1
  obtain ⟨pd, hpd, htot⟩ := searchPhase_success_total o os duration
    ⟨origin, destination, departure_date, 1, "INR", 10, rdate⟩ hany hit
  refine ⟨pd, ?_, htot⟩
  rw [show (get_flight_price env st origin destination departure_date duration).1 =
    searchPhase env.searchReply duration
      ⟨origin, destination, departure_date, 1, "INR", 10, rdate⟩ by
    simp [get_flight_price, hv, hdur]]
  rw [hs]
  exact hpd

def wOffer500 : Offer := ⟨⟨"500.00"⟩, [⟨"PT2H", []⟩]⟩

def wOffer250 : Offer := ⟨⟨"250.00"⟩, [⟨"PT3H", []⟩, ⟨"PT4H", []⟩]⟩

def wOffer999 : Offer := ⟨⟨"999.00"⟩, [⟨"PT5H", []⟩]⟩

def wSt : AmadeusCred := ⟨"tok", some 2400⟩

def wEnvC1 : Env := ⟨1000, none, SearchReply.success [wOffer500, wOffer250, wOffer999]⟩

/-- C1 witness: for offers priced [500, 250, 999] the selected offer is the
one priced 250, and the payload's total price is 250. -/
theorem c1_min_price_selection_witness :
    ((∃ pd : ResponseData,
      (get_flight_price wEnvC1 wSt "DEL" "BOM" "2025-01-30" none).1 =
        Outcome.ok (FlightResult.data pd) ∧
      pd.total_price_in_inr = grandTotalVal (pyMin wOffer500 [wOffer250, wOffer999])) ∧
    (∃ i : Nat, ([wOffer500, wOffer250, wOffer999])[i]? =
        some (pyMin wOffer500 [wOffer250, wOffer999]) ∧
      (∀ x ∈ [wOffer500, wOffer250, wOffer999],
        grandTotalVal (pyMin wOffer500 [wOffer250, wOffer999]) ≤ grandTotalVal x) ∧
      (∀ j x, j < i → ([wOffer500, wOffer250, wOffer999])[j]? = some x →
        grandTotalVal (pyMin wOffer500 [wOffer250, wOffer999]) < grandTotalVal x))) ∧
    pyMin wOffer500 [wOffer250, wOffer999] = wOffer250 ∧
    grandTotalVal (pyMin wOffer500 [wOffer250, wOffer999]) = 250 :=
  ⟨c1_min_price_selection wEnvC1 wSt "DEL" "BOM" "2025-01-30" none none
      wOffer500 [wOffer250, wOffer999] (by decide) rfl rfl (by decide) (by decide),
    by decide, by decide⟩

/-- C3: when the duration string matches the pattern with value `n` and the
departure date parses to `d`, every search query actually sent to the
provider carries a return date equal to the ISO formatting of `d` plus `n`
days, where adding `n` days is characterized by the date ordinal:
`toOrd (addDays d n) = toOrd d + n` on a valid calendar date. -/
theorem c3_return_date (env : Env) (st : AmadeusCred)
    (origin destination departure_date : String) (s : String) (n : Nat) (d : PyDate)
    (hm : matchDuration s = some n)
    (hd : strptime_date departure_date = some d) :
    (∀ q : SearchQueryParams,
      ApiCall.searchCall q ∈
        (get_flight_price env st origin destination departure_date (some s)).2.2 →
      q.returnDate = some (strftime_date (addDays d n))) ∧
    toOrd (addDays d n) = toOrd d + n ∧ ValidYMD (addDays d n) := by
  have hvd := strptime_date_valid departure_date d hd
  have had := toOrd_addDays d hvd n
  refine ⟨?_, had.1, had.2⟩
  intro q hq
  have hs : ¬ (s = "") := by
    intro he
    rw [he] at hm
    simp [matchDuration] at hm
  have hcr : computeReturnDate departure_date (some s) =
      (if 9999 < (addDays d n).year then Except.error (Outcome.pyError "OverflowError")
       else Except.ok (some (strftime_date (addDays d n)))) := by
    simp [computeReturnDate, hs, hm, hd]
  by_cases hov : 9999 < (addDays d n).year
  · rw [if_pos hov] at hcr
    by_cases hv : is_token_valid env.now st = true
    · simp [get_flight_price, hv, hcr] at hq
    · simp only [Bool.not_eq_true] at hv
      rcases ht : get_amadeus_token env with o | st2 <;>
        simp [get_flight_price, hv, ht, hcr] at hq
  · rw [if_neg hov] at hcr
    by_cases hv : is_token_valid env.now st = true
    · simp [get_flight_price, hv, hcr] at hq
      simp [hq]
    · simp only [Bool.not_eq_true] at hv
      rcases ht : get_amadeus_token env with o | st2
      · simp [get_flight_price, hv, ht, hcr] at hq
      · simp [get_flight_price, hv, ht, hcr] at hq
        simp [hq]

/-- C3 witness: duration "3 days" on departure 2025-01-30 sends a search
query whose return date is "2025-02-02", three ordinal days later. -/
theorem c3_return_date_witness :
    (get_flight_price ⟨1000, none, SearchReply.success []⟩ wSt
        "DEL" "BOM" "2025-01-30" (some "3 days")).2.2 =
      [ApiCall.searchCall ⟨"DEL", "BOM", "2025-01-30", 1, "INR", 10, some "2025-02-02"⟩] ∧
    strftime_date (addDays ⟨2025, 1, 30⟩ 3) = "2025-02-02" ∧
    toOrd (addDays ⟨2025, 1, 30⟩ 3) = toOrd ⟨2025, 1, 30⟩ + 3 := by
  have h := c3_return_date ⟨1000, none, SearchReply.success []⟩ wSt
    "DEL" "BOM" "2025-01-30" "3 days" 3 ⟨2025, 1, 30⟩ (by decide) (by decide)
  have h2 := h.1 ⟨"DEL", "BOM", "2025-01-30", 1, "INR", 10, some "2025-02-02"⟩ (by decide)
  exact ⟨by decide, (Option.some.inj h2).symm, h.2.1⟩

/-- C9: for a two-way search whose winning offer carries two itineraries,
the return date in the payload is exactly the returnDate parameter of the
search query that was sent to the provider. -/
theorem c9_round_trip (env : Env) (st : AmadeusCred)
    (origin destination departure_date : String) (s : String) (n : Nat) (d : PyDate)
    (o : Offer) (os : List Offer) (it0 it1 : Itinerary) (rest : List Itinerary)
    (hv : is_token_valid env.now st = true)
    (hm : matchDuration s = some n)
    (hd : strptime_date departure_date = some d)
    (hov : ¬ 9999 < (addDays d n).year)
    (hsr : env.searchReply = SearchReply.success (o :: os))
    (hp : ∀ x ∈ o :: os, (parseDecimal x.price.grandTotal).isSome = true)
    (hits : (pyMin o os).itineraries = it0 :: it1 :: rest) :
    ∃ q : SearchQueryParams, ∃ pd : ResponseData,
      (get_flight_price env st origin destination departure_date (some s)).1 =
        Outcome.ok (FlightResult.data pd) ∧
      ApiCall.searchCall q ∈
        (get_flight_price env st origin destination departure_date (some s)).2.2 ∧
      pd.return_date = q.returnDate ∧ q.returnDate ≠ none := by
  have hs : ¬ (s = "") := by
    intro he
    rw [he] at hm
    simp [matchDuration] at hm
  have hdt : durTruthy (some s) = true := by simp [durTruthy, hs]
  have hcr : computeReturnDate departure_date (some s) =
      Except.ok (some (strftime_date (addDays d n))) := by
    simp [computeReturnDate, hs, hm, hd, hov]
  have hany : ((o :: os).any fun x => (parseDecimal x.price.grandTotal).isNone) = false := by
    rw [List.any_eq_false]
    intro x hx
    simp only [Option.isNone_iff_eq_none]
    exact Option.isSome_iff_ne_none.mp (hp x hx)
  refine ⟨⟨origin, destination, departure_date, 1, "INR", 10,
      some (strftime_date (addDays d n))⟩,
    ⟨"two-way", grandTotalVal (pyMin o os), parse_itinerary_details it0,
      some (parse_itinerary_details it1), some (strftime_date (addDays d n))⟩,
    ?_, ?_, rfl, by simp⟩
  · rw [show (get_flight_price env st origin destination departure_date (some s)).1 =
      searchPhase env.searchReply (some s)
        ⟨origin, destination, departure_date, 1, "INR", 10,
          some (strftime_date (addDays d n))⟩ by
      simp [get_flight_price, hv, hcr]]
    rw [hsr]
    simp [searchPhase, hany, hits, hdt]
  · simp [get_flight_price, hv, hcr]

/-- C9 witness: a concrete two-way search whose cheapest offer has two
itineraries echoes the sent returnDate in the payload. -/
theorem c9_round_trip_witness :
    ∃ q : SearchQueryParams, ∃ pd : ResponseData,
      (get_flight_price wEnvC1 wSt "DEL" "BOM" "2025-01-30" (some "3 days")).1 =
        Outcome.ok (FlightResult.data pd) ∧
      ApiCall.searchCall q ∈
        (get_flight_price wEnvC1 wSt "DEL" "BOM" "2025-01-30" (some "3 days")).2.2 ∧
      pd.return_date = q.returnDate ∧ q.returnDate ≠ none :=
  c9_round_trip wEnvC1 wSt "DEL" "BOM" "2025-01-30" "3 days" 3 ⟨2025, 1, 30⟩
    wOffer500 [wOffer250, wOffer999] ⟨"PT3H", []⟩ ⟨"PT4H", []⟩ []
    (by decide) (by decide) (by decide) (by decide) rfl (by decide) (by decide)

theorem get_amadeus_token_error (env : Env) (o : Outcome)
    (h : get_amadeus_token env = Except.error o) :
    o = Outcome.httpError 500 authFailMsg := by
  unfold get_amadeus_token at h
  rcases henv : env.tokenReply with _ | td <;> rw [henv] at h
  · exact (Except.error.inj h).symm
  · simp at h

theorem computeReturnDate_error_not_ok (departure_date : String)
    (duration : Option String) (o : Outcome)
    (h : computeReturnDate departure_date duration = Except.error o) :
    ∀ r : FlightResult, o ≠ Outcome.ok r := by
  intro r hr
  subst hr
  rcases duration with _ | s
  · simp [computeReturnDate] at h
  · by_cases hs : s = ""
    · simp [computeReturnDate, hs] at h
    · rcases hm : matchDuration s with _ | n
      · simp [computeReturnDate, hs, hm] at h
      · rcases hd : strptime_date departure_date with _ | d
        · simp [computeReturnDate, hs, hm, hd] at h
        · by_cases hov : 9999 < (addDays d n).year <;>
            simp [computeReturnDate, hs, hm, hd, hov] at h

theorem searchPhase_ok_data (reply : SearchReply) (duration : Option String)
    (params : SearchQueryParams) (pd : ResponseData)
    (h : searchPhase reply duration params = Outcome.ok (FlightResult.data pd)) :
    pd.journey_type = (if durTruthy duration then "two-way" else "one-way") ∧
    (durTruthy duration = false → pd.return_journey = none ∧ pd.return_date = none) ∧
    (∀ o os, reply = SearchReply.success (o :: os) →
      (pyMin o os).itineraries.length ≤ 1 →
      pd.return_journey = none ∧ pd.return_date = none) := by
  rcases reply with offers | ⟨status, body⟩ | msg
  · rcases offers with _ | ⟨o, os⟩
    · simp [searchPhase] at h
    · by_cases hany : ((o :: os).any fun x => (parseDecimal x.price.grandTotal).isNone) = true
      · simp [searchPhase, hany] at h
      · simp only [Bool.not_eq_true] at hany
        rcases hits : (pyMin o os).itineraries with _ | ⟨it0, more⟩
        · simp [searchPhase, hany, hits] at h
        · cases hdt : durTruthy duration with
          | false =>
            cases more with
            | nil =>
              simp [searchPhase, hany, hits, hdt] at h
              refine ⟨by simp [hdt, ← h], by simp [← h], ?_⟩
              intro o2 os2 he hlen
              obtain ⟨rfl, rfl⟩ : o2 = o ∧ os2 = os := by
                have := SearchReply.success.inj he
                exact ⟨(List.cons.inj this).1.symm, (List.cons.inj this).2.symm⟩
              simp [← h]
            | cons it1 rest =>
              simp [searchPhase, hany, hits, hdt] at h
              refine ⟨by simp [hdt, ← h], by simp [← h], ?_⟩
              intro o2 os2 he hlen
              obtain ⟨rfl, rfl⟩ : o2 = o ∧ os2 = os := by
                have := SearchReply.success.inj he
                exact ⟨(List.cons.inj this).1.symm, (List.cons.inj this).2.symm⟩
              simp [← h]
          | true =>
            cases more with
            | nil =>
              simp [searchPhase, hany, hits, hdt] at h
              refine ⟨by simp [hdt, ← h], by simp [hdt], ?_⟩
              intro o2 os2 he hlen
              obtain ⟨rfl, rfl⟩ : o2 = o ∧ os2 = os := by
                have := SearchReply.success.inj he
                exact ⟨(List.cons.inj this).1.symm, (List.cons.inj this).2.symm⟩
              simp [← h]
            | cons it1 rest =>
              simp [searchPhase, hany, hits, hdt] at h
              refine ⟨by simp [hdt, ← h], by simp [hdt], ?_⟩
              intro o2 os2 he hlen
              obtain ⟨rfl, rfl⟩ : o2 = o ∧ os2 = os := by
                have := SearchReply.success.inj he
                exact ⟨(List.cons.inj this).1.symm, (List.cons.inj this).2.symm⟩
              rw [hits] at hlen
              simp at hlen
  · rcases body with _ | b <;> simp [searchPhase] at h
  · simp [searchPhase] at h

/-- C5 counterexample: the caller supplies a duration — the empty string —
yet the payload's journey type is "one-way", refuting that the journey
type is "two-way" exactly when a duration was supplied. -/
theorem c5_counterexample :
    (some "" : Option String).isSome = true ∧
    (get_flight_price wEnvC1 wSt "DEL" "BOM" "2025-01-30" (some "")).1 =
      Outcome.ok (FlightResult.data
        ⟨"one-way", 250, parse_itinerary_details ⟨"PT3H", []⟩, none, none⟩) :=
  ⟨rfl, by decide⟩

/-- C5 (amended): for every successful data payload the journey type is
"two-way" exactly when the supplied duration was truthy (present and
non-empty); with no duration the payload is "one-way" with no
return-journey and no return-date field; and when the winning offer has at
most one itinerary the return fields are omitted as well. -/
theorem c5_journey_type (env : Env) (st : AmadeusCred)
    (origin destination departure_date : String) (duration : Option String)
    (pd : ResponseData)
    (hrun : (get_flight_price env st origin destination departure_date duration).1 =
      Outcome.ok (FlightResult.data pd)) :
    (pd.journey_type = "two-way" ↔ durTruthy duration = true) ∧
    (duration = none →
      pd.journey_type = "one-way" ∧ pd.return_journey = none ∧ pd.return_date = none) ∧
    (∀ o : Offer, ∀ os : List Offer,
      env.searchReply = SearchReply.success (o :: os) →
      (pyMin o os).itineraries.length ≤ 1 →
      pd.return_journey = none ∧ pd.return_date = none) := by
  have hsp : ∃ params : SearchQueryParams,
      searchPhase env.searchReply duration params =
        Outcome.ok (FlightResult.data pd) := by
    by_cases hv : is_token_valid env.now st = true
    · rcases hcr : computeReturnDate departure_date duration with o2 | rdate
      · exfalso
        simp only [get_flight_price, hv, if_true, hcr] at hrun
        exact computeReturnDate_error_not_ok departure_date duration o2 hcr
          (FlightResult.data pd) hrun
      · exact ⟨_, by simpa [get_flight_price, hv, hcr] using hrun⟩
    · simp only [Bool.not_eq_true] at hv
      rcases ht : get_amadeus_token env with o2 | st2
      · exfalso
        simp only [get_flight_price, hv, Bool.false_eq_true, if_false, ht] at hrun
        rw [get_amadeus_token_error env o2 ht] at hrun
        simp at hrun
      · rcases hcr : computeReturnDate departure_date duration with o2 | rdate
        · exfalso
          simp only [get_flight_price, hv, Bool.false_eq_true, if_false, ht, hcr] at hrun
          exact computeReturnDate_error_not_ok departure_date duration o2 hcr
            (FlightResult.data pd) hrun
        · exact ⟨_, by simpa [get_flight_price, hv, ht, hcr] using hrun⟩
  obtain ⟨params, hps⟩ := hsp
  obtain ⟨hjt, hfalse, hone⟩ := searchPhase_ok_data env.searchReply duration params pd hps
  refine ⟨?_, ?_, hone⟩
  · cases hdt : durTruthy duration with
    | false => rw [hdt] at hjt; simp at hjt; simp [hjt]
    | true => rw [hdt] at hjt; simp at hjt; simp [hjt]
  · intro hnone
    have hdt : durTruthy duration = false := by rw [hnone]; rfl
    rw [hdt] at hjt
    simp at hjt
    exact ⟨hjt, hfalse hdt⟩

def wPd5 : ResponseData :=
  ⟨"one-way", 250, parse_itinerary_details ⟨"PT3H", []⟩, none, none⟩

/-- C5 witness: a concrete no-duration request returns a one-way payload
with no return fields. -/
theorem c5_journey_type_witness :
    (get_flight_price wEnvC1 wSt "DEL" "BOM" "2025-01-30" none).1 =
      Outcome.ok (FlightResult.data wPd5) ∧
    ¬ wPd5.journey_type = "two-way" ∧
    wPd5.journey_type = "one-way" ∧ wPd5.return_journey = none ∧
    wPd5.return_date = none := by
  have hrun : (get_flight_price wEnvC1 wSt "DEL" "BOM" "2025-01-30" none).1 =
      Outcome.ok (FlightResult.data wPd5) := by decide
  have h := c5_journey_type wEnvC1 wSt "DEL" "BOM" "2025-01-30" none wPd5 hrun
  have h2 := h.2.1 rfl
  refine ⟨hrun, fun hc => ?_, h2.1, h2.2.1, h2.2.2⟩
  have hdt := h.1.mp hc
  simp [durTruthy] at hdt

theorem outcome_after_token (env : Env) (st : AmadeusCred)
    (origin destination departure_date : String) (duration : Option String)
    (htok : is_token_valid env.now st = true ∨ ∃ td, env.tokenReply = some td) :
    (get_flight_price env st origin destination departure_date duration).1 =
      (match computeReturnDate departure_date duration with
       | Except.error o => o
       | Except.ok rdate =>
         searchPhase env.searchReply duration
           ⟨origin, destination, departure_date, 1, "INR", 10, rdate⟩) := by
  by_cases hv : is_token_valid env.now st = true
  · rcases h : computeReturnDate departure_date duration with o | rdate <;>
      simp [get_flight_price, hv, h]
  · rcases htok with htok | ⟨td, htd⟩
    · exact absurd htok hv
    · simp only [Bool.not_eq_true] at hv
      have ht : get_amadeus_token env =
          Except.ok ⟨td.access_token, some (env.now + td.expires_in)⟩ := by
        simp [get_amadeus_token, htd]
      rcases h : computeReturnDate departure_date duration with o | rdate <;>
        simp [get_flight_price, hv, ht, h]

theorem searchPhase_success_not_httpError (offers : List Offer)
    (duration : Option String) (params : SearchQueryParams)
    (status : Nat) (det : String) :
    searchPhase (SearchReply.success offers) duration params ≠
      Outcome.httpError status det := by
  rcases offers with _ | ⟨o, os⟩
  · simp [searchPhase]
  · by_cases hany : ((o :: os).any fun x => (parseDecimal x.price.grandTotal).isNone) = true
    · simp [searchPhase, hany]
    · simp only [Bool.not_eq_true] at hany
      rcases hits : (pyMin o os).itineraries with _ | ⟨it0, more⟩
      · simp [searchPhase, hany, hits]
      · cases hdt : durTruthy duration <;> rcases more with _ | ⟨it1, rest⟩ <;>
          simp [searchPhase, hany, hits, hdt]

/-- C2 counterexample: the empty duration string — which the claim says
must yield InvalidArgument — is treated as no duration and succeeds; a
string with trailing text after "days", which the claim's anchored pattern
rejects, also succeeds. -/
theorem c2_counterexample :
    (get_flight_price ⟨1000, none, SearchReply.success []⟩ wSt
      "DEL" "BOM" "2025-01-30" (some "")).1 =
      Outcome.ok (FlightResult.message noOffersMsg) ∧
    (get_flight_price ⟨1000, none, SearchReply.success []⟩ wSt
      "DEL" "BOM" "2025-01-30" (some "3 days later")).1 =
      Outcome.ok (FlightResult.message noOffersMsg) :=
  ⟨by decide, by decide⟩

/-- C2 (amended): for a non-empty duration string, a departure date that
parses and a reachable provider, the request fails with the InvalidArgument
error (HTTP 400 with the expected-format message) if and only if the string
fails `re.match(r"(\d+)\s*days", ..., re.IGNORECASE)`, which is anchored at
the start only: no leading whitespace is allowed and trailing text is
ignored.  The empty string is treated as an absent duration. -/
theorem c2_duration_validation (env : Env) (st : AmadeusCred)
    (origin destination departure_date : String) (s : String) (d : PyDate)
    (offers : List Offer)
    (hs : ¬ s = "")
    (hd : strptime_date departure_date = some d)
    (hsr : env.searchReply = SearchReply.success offers)
    (htok : is_token_valid env.now st = true ∨ ∃ td, env.tokenReply = some td) :
    (get_flight_price env st origin destination departure_date (some s)).1 =
      Outcome.httpError 400 invalidDurationMsg ↔ matchDuration s = none := by
  rw [outcome_after_token env st origin destination departure_date (some s) htok]
  rcases hm : matchDuration s with _ | n
  · simp [computeReturnDate, hs, hm]
  · have hcr : computeReturnDate departure_date (some s) =
        (if 9999 < (addDays d n).year then Except.error (Outcome.pyError "OverflowError")
         else Except.ok (some (strftime_date (addDays d n)))) := by
      simp [computeReturnDate, hs, hm, hd]
    by_cases hov : 9999 < (addDays d n).year
    · rw [hcr, if_pos hov]
      simp
    · rw [hcr, if_neg hov]
      simp only [hsr]
      simp [searchPhase_success_not_httpError offers (some s)
        ⟨origin, destination, departure_date, 1, "INR", 10,
          some (strftime_date (addDays d n))⟩ 400 invalidDurationMsg]

/-- C2 witness: "3 weeks" (with a valid token, date and provider) yields
exactly the InvalidArgument 400 with the expected-format message, and
"abc days" also fails the pattern. -/
theorem c2_duration_validation_witness :
    (get_flight_price ⟨1000, none, SearchReply.success []⟩ wSt
      "DEL" "BOM" "2025-01-30" (some "3 weeks")).1 =
      Outcome.httpError 400 invalidDurationMsg ∧
    matchDuration "abc days" = none :=
  ⟨(c2_duration_validation ⟨1000, none, SearchReply.success []⟩ wSt
      "DEL" "BOM" "2025-01-30" "3 weeks" ⟨2025, 1, 30⟩ []
      (by decide) (by decide) rfl (Or.inl (by decide))).mpr (by decide),
    by decide⟩

/-- C6 counterexample: on a pure network failure — the provider never
answers, so no response object exists — the handler does not produce the
claimed generic upstream error wrapping the original error text: the
except-block dereferences the unbound `response` variable and dies with an
`UnboundLocalError`, which the framework turns into a bare 500. -/
theorem c6_counterexample :
    (get_flight_price ⟨1000, none, SearchReply.networkFailure "Connection refused"⟩
      wSt "DEL" "BOM" "2025-01-30" none).1 = Outcome.pyError "UnboundLocalError" ∧
    (get_flight_price ⟨1000, none, SearchReply.networkFailure "Connection refused"⟩
      wSt "DEL" "BOM" "2025-01-30" none).1 ≠
      Outcome.httpError 500
        "An error occurred while fetching flight data: Connection refused" :=
  ⟨by decide, by decide⟩

/-- C6 (amended): a failed provider search whose response body is JSON is
classified by status — 400 with the provider's error body included, 401
authentication failure, 404 not found, anything else a generic message
wrapping the HTTP error text — with the provider's status propagated; a
non-2xx response whose body is not JSON becomes a 500 carrying only the
original error text; a pure network failure escapes as an uncaught
`UnboundLocalError` instead of a classified error. -/
theorem c6_error_classification (env : Env) (st : AmadeusCred)
    (origin destination departure_date : String) (duration : Option String)
    (rdate : Option String)
    (htok : is_token_valid env.now st = true ∨ ∃ td, env.tokenReply = some td)
    (hcr : computeReturnDate departure_date duration = Except.ok rdate) :
    (∀ status : Nat, ∀ body : String,
      env.searchReply = SearchReply.httpFailure status (some body) →
      (get_flight_price env st origin destination departure_date duration).1 =
        Outcome.httpError status (classifyDetail status body)) ∧
    (∀ body : String, classifyDetail 400 body =
      "Bad request to Amadeus API. Please check your parameters. Error: " ++ body) ∧
    (∀ body : String, classifyDetail 401 body =
      "Amadeus authentication failed. Please check your API key and secret.") ∧
    (∀ body : String, classifyDetail 404 body =
      "The requested resource was not found on the Amadeus API.") ∧
    (∀ status : Nat, env.searchReply = SearchReply.httpFailure status none →
      (get_flight_price env st origin destination departure_date duration).1 =
        Outcome.httpError 500 (requestsErrText status)) ∧
    (∀ msg : String, env.searchReply = SearchReply.networkFailure msg →
      (get_flight_price env st origin destination departure_date duration).1 =
        Outcome.pyError "UnboundLocalError") := by
  have hout := outcome_after_token env st origin destination departure_date duration htok
  rw [hcr] at hout
  refine ⟨?_, fun body => rfl, fun body => rfl, fun body => rfl, ?_, ?_⟩
  · intro status body hrep
    rw [hout, hrep]
    rfl
  · intro status hrep
    rw [hout, hrep]
    rfl
  · intro msg hrep
    rw [hout, hrep]
    rfl

/-- C6 witness: a provider 401 with a JSON body is surfaced as an HTTP 401
whose detail is the authentication-failure message. -/
theorem c6_error_classification_witness :
    (get_flight_price ⟨1000, none, SearchReply.httpFailure 401 (some "err")⟩
      wSt "DEL" "BOM" "2025-01-30" none).1 =
      Outcome.httpError 401 (classifyDetail 401 "err") ∧
    classifyDetail 401 "err" =
      "Amadeus authentication failed. Please check your API key and secret." :=
  ⟨(c6_error_classification ⟨1000, none, SearchReply.httpFailure 401 (some "err")⟩
      wSt "DEL" "BOM" "2025-01-30" none none (Or.inl (by decide)) rfl).1 401 "err" rfl,
    rfl⟩

/-- C8 counterexample: with an invalid cached token and a malformed
duration string, the handler does perform the token-refresh network call
before raising the InvalidArgument error, refuting that no network call is
ever issued in such an execution. -/
theorem c8_counterexample :
    (get_flight_price ⟨1000, some ⟨"t", 1799⟩, SearchReply.success []⟩ ⟨"", none⟩
      "DEL" "BOM" "2025-01-30" (some "3 weeks")).2.2 = [ApiCall.tokenCall] ∧
    (get_flight_price ⟨1000, some ⟨"t", 1799⟩, SearchReply.success []⟩ ⟨"", none⟩
      "DEL" "BOM" "2025-01-30" (some "3 weeks")).1 =
      Outcome.httpError 400 invalidDurationMsg :=
  ⟨by decide, by decide⟩

/-- C8 (amended): when the duration string fails the pattern, the search
call is never issued and (provided the token step does not itself fail)
the outcome is the InvalidArgument 400; but the token-refresh call, which
precedes duration validation, is still issued whenever the cached token is
invalid. -/
theorem c8_fail_fast (env : Env) (st : AmadeusCred)
    (origin destination departure_date : String) (s : String)
    (hs : ¬ s = "") (hm : matchDuration s = none) :
    (∀ q : SearchQueryParams, ApiCall.searchCall q ∉
      (get_flight_price env st origin destination departure_date (some s)).2.2) ∧
    ((is_token_valid env.now st = true ∨ ∃ td, env.tokenReply = some td) →
      (get_flight_price env st origin destination departure_date (some s)).1 =
        Outcome.httpError 400 invalidDurationMsg) := by
  have hcr : computeReturnDate departure_date (some s) =
      Except.error (Outcome.httpError 400 invalidDurationMsg) := by
    simp [computeReturnDate, hs, hm]
  constructor
  · intro q
    by_cases hv : is_token_valid env.now st = true
    · simp [get_flight_price, hv, hcr]
    · simp only [Bool.not_eq_true] at hv
      rcases ht : get_amadeus_token env with o | st2 <;>
        simp [get_flight_price, hv, ht, hcr]
  · intro htok
    rw [outcome_after_token env st origin destination departure_date (some s) htok, hcr]

/-- C8 witness: with a valid cached token, a malformed duration string
produces the 400 and the search call is never issued. -/
theorem c8_fail_fast_witness :
    ApiCall.searchCall ⟨"DEL", "BOM", "2025-01-30", 1, "INR", 10, none⟩ ∉
      (get_flight_price ⟨1000, none, SearchReply.success []⟩ wSt
        "DEL" "BOM" "2025-01-30" (some "3 weeks")).2.2 ∧
    (get_flight_price ⟨1000, none, SearchReply.success []⟩ wSt
      "DEL" "BOM" "2025-01-30" (some "3 weeks")).1 =
      Outcome.httpError 400 invalidDurationMsg :=
  have h := c8_fail_fast ⟨1000, none, SearchReply.success []⟩ wSt
    "DEL" "BOM" "2025-01-30" "3 weeks" (by decide) (by decide)
  ⟨h.1 ⟨"DEL", "BOM", "2025-01-30", 1, "INR", 10, none⟩, h.2 (Or.inl (by decide))⟩

end Amadeus
